import Mathlib

/-!
Verification development for catalogd's unpack-cache-reconcile pipeline:
the image-registry content resolver, the catalog reconciliation state
machine, the storage step, and the startup garbage-collection sweep.

The garbage-collection sweep is translated from
`cmd/manager/main.go` (`unpackStartupGarbageCollection`).  The resolver
and reconciler implementations are not part of the provided sources
(only their unit tests are), so they are modelled from the
specification, with the unit tests pinning the observable behaviour.
-/

namespace Catalogd

/-- Error value carried by the resolver and reconciler.  `unrecoverable`
mirrors the error-classification tag (`Unrecoverable` vs recoverable):
the tag, not the message text, drives reconciliation behaviour. -/
structure UnpackError where
  unrecoverable : Bool
  msg : String
deriving DecidableEq

/-- Source kind of a catalog source descriptor.  `image` is the only
registered kind; any other kind is unregistered. -/
inductive SourceType
  | image
  | other (s : String)
deriving DecidableEq

/-- Image source descriptor: a reference string. -/
structure ImageSource where
  ref : String
deriving DecidableEq

/-- Kind-tagged source descriptor of a catalog
(`.spec.source`: a type tag plus an optional image descriptor). -/
structure CatalogSource where
  type : SourceType
  image : Option ImageSource
deriving DecidableEq

/-- Unpack states reported by a resolver (`StatePending`,
`StateUnpacking`, `StateUnpacked`); in the source these are string
constants, so an arbitrary unrecognized string state is possible. -/
inductive State
  | pending
  | unpacking
  | unpacked
  | unknown (s : String)
deriving DecidableEq

/-- Transient resolver result (`source.Result`): the unpack state plus
the digest-pinned resolved reference (meaningful once unpacked). -/
structure Result where
  state : State
  resolvedRef : String
deriving DecidableEq

/-- Phase of a catalog status. -/
inductive Phase
  | pending
  | unpacking
  | unpacked
  | failing
deriving DecidableEq

/-- Condition types used by the reconciler (`TypeUnpacked`, `TypeDelete`). -/
inductive ConditionType
  | unpacked
  | delete
deriving DecidableEq

/-- Condition reason vocabulary (stable public contract). -/
inductive ConditionReason
  | unpackPending
  | unpacking
  | unpackFailed
  | unpackSuccessful
  | storageFailed
  | storageDeleteFailed
deriving DecidableEq

/-- A status condition: type, boolean status, reason code. -/
structure Condition where
  type : ConditionType
  status : Bool
  reason : ConditionReason
deriving DecidableEq

/-- A catalog resource as seen by the reconciler: a name, the source
descriptor, the deletion finalizer marker, the deletion timestamp
(modelled as a flag: set or unset), and the status fields. -/
structure Catalog where
  name : String
  source : CatalogSource
  hasFinalizer : Bool
  deletionTimestampSet : Bool
  phase : Option Phase
  conditions : List Condition
  contentURL : Option String
  resolvedRef : Option String
deriving DecidableEq

/-- Set a condition in a condition list, replacing the condition of the
same type when present and appending otherwise (the semantics of
`meta.SetStatusCondition`). -/
def setCondition (conds : List Condition) (c : Condition) : List Condition :=
  if conds.any fun x => x.type == c.type then
    conds.map fun x => if x.type == c.type then c else x
  else conds ++ [c]

/-- Behaviour of the reconciler's collaborators during one reconcile
pass: the resolver's unpack outcome, whether the content store's
`Store`/`Delete` and the resolver's `Cleanup` succeed, and the store's
`ContentURL` answer for the resource's name. -/
structure Collaborators where
  unpack : Except UnpackError Result
  storeOk : Bool
  deleteOk : Bool
  cleanupOk : Bool
  contentURL : String

/-- Modelled from the spec: the reconciler's per-pass state machine
(`CatalogReconciler.reconcile`; its implementation is missing from the
sources, only `catalog_controller_test.go` is present).  Deletion path
first: with the finalizer absent it is a no-op; otherwise store-delete
failure sets a `Delete`-type condition false/`StorageDeleteFailed`,
keeps the finalizer and returns the error; cleanup failure likewise
surfaces the error; on both succeeding the finalizer is removed.
Normal path: an absent finalizer is added and the pass returns success
immediately without resolving.  Otherwise the resolver outcome is
mapped to status: an error (either classification) or an unrecognized
state gives phase `Failing` with condition false/`UnpackFailed` and
the error is returned; `Pending` and `Unpacking` give the matching
phase and condition with success; `Unpacked` proceeds to the storage
step, where store failure gives phase `Failing` with condition
false/`StorageFailed` and the error, and store success gives phase
`Unpacked`, the store's content URL, the resolved reference, and
condition true/`UnpackSuccessful`. -/
def reconcile (env : Collaborators) (c : Catalog) : Catalog × Option UnpackError :=
  if c.deletionTimestampSet then
    if c.hasFinalizer then
      if env.deleteOk then
        if env.cleanupOk then
          ({ c with hasFinalizer := false }, none)
        else
          (c, some ⟨false, "cleanup failed"⟩)
      else
        ({ c with
            conditions := setCondition c.conditions ⟨.delete, false, .storageDeleteFailed⟩ },
          some ⟨false, "storage delete failed"⟩)
    else
      (c, none)
  else if !c.hasFinalizer then
    ({ c with hasFinalizer := true }, none)
  else
    match env.unpack with
    | .error e =>
      ({ c with
          phase := some .failing,
          conditions := setCondition c.conditions ⟨.unpacked, false, .unpackFailed⟩ },
        some e)
    | .ok r =>
      match r.state with
      | .pending =>
        ({ c with
            phase := some .pending,
            conditions := setCondition c.conditions ⟨.unpacked, false, .unpackPending⟩ },
          none)
      | .unpacking =>
        ({ c with
            phase := some .unpacking,
            conditions := setCondition c.conditions ⟨.unpacked, false, .unpacking⟩ },
          none)
      | .unpacked =>
        if env.storeOk then
          ({ c with
              phase := some .unpacked,
              contentURL := some env.contentURL,
              resolvedRef := some r.resolvedRef,
              conditions := setCondition c.conditions ⟨.unpacked, true, .unpackSuccessful⟩ },
            none)
        else
          ({ c with
              phase := some .failing,
              conditions := setCondition c.conditions ⟨.unpacked, false, .storageFailed⟩ },
            some ⟨false, "storage failed"⟩)
      | .unknown _ =>
        ({ c with
            phase := some .failing,
            conditions := setCondition c.conditions ⟨.unpacked, false, .unpackFailed⟩ },
          some ⟨false, "unknown unpack state"⟩)

/-- An image reference after syntactic parsing: a repository plus
either a tag or a digest hex. -/
inductive ParsedRef
  | tag (repo : String) (t : String)
  | digest (repo : String) (hex : String)
deriving DecidableEq

/-- Repository part of a parsed reference (`ref.Context().Name()`). -/
def refRepo : ParsedRef → String
  | .tag repo _ => repo
  | .digest repo _ => repo

/-- Registry behaviour visible to the resolver: resolving a tag to a
digest hex (`none` models a registry/network failure or a missing
image), whether pulling the image at a digest succeeds, and the value
of the required config-directory label on the image config (`none`
models an image lacking the label). -/
structure RegistryModel where
  resolveTag : String → String → Option String
  pullOk : String → String → Bool
  configDirLabel : String → String → Option String

/-- The image-registry resolver: reference parsing behaviour plus the
registry it talks to.  The cache root path is left implicit: the cache
is modelled as the set of (resourceName, digestHex) entries present
under the root. -/
structure ImageRegistry where
  parse : String → Option ParsedRef
  registry : RegistryModel

/-- Modelled from the spec: digest resolution (step 2 of the
image-source algorithm).  A reference already expressed as a digest is
used as-is with no network call; a tag is resolved via the registry
and a registry failure is a recoverable error. -/
def resolveDigest (i : ImageRegistry) (pr : ParsedRef) : Except UnpackError String :=
  match pr with
  | .digest _ hex => .ok hex
  | .tag repo t =>
    match i.registry.resolveTag repo t with
    | some hex => .ok hex
    | none => .error ⟨false, "error resolving tag reference"⟩

/-- Modelled from the spec: `ImageRegistry.Unpack` (its implementation
is missing from the sources, only its unit test is present).  The cache
is the list of (resourceName, digestHex) entries on disk; the function
returns the updated cache and the resolver result.  A nil image source
or an unparsable reference is `Unrecoverable`; after digest resolution,
an entry already in the cache is a side-effect-free cache hit returning
`Unpacked` immediately; on a miss, a pull failure is recoverable, a
missing required label is `Unrecoverable`, and success materializes the
entry, removes sibling entries of the same resource with a different
digest, and returns `Unpacked` with the reference rewritten to the
fully digest-pinned `repository@sha256:digestHex` form. -/
def ImageRegistry.Unpack (i : ImageRegistry) (cache : List (String × String))
    (nm : String) (src : CatalogSource) :
    Except UnpackError (List (String × String) × Result) :=
  match src.image with
  | none => .error ⟨true, "image source is nil"⟩
  | some img =>
    match i.parse img.ref with
    | none => .error ⟨true, "error parsing image reference"⟩
    | some pr =>
      match resolveDigest i pr with
      | .error e => .error e
      | .ok hex =>
        if (nm, hex) ∈ cache then
          .ok (cache, ⟨.unpacked, refRepo pr ++ "@sha256:" ++ hex⟩)
        else if i.registry.pullOk (refRepo pr) hex then
          match i.registry.configDirLabel (refRepo pr) hex with
          | none => .error ⟨true, "image is missing the required configs directory label"⟩
          | some _ =>
            .ok ((nm, hex) :: cache.filter (fun ent => !(ent.1 == nm)),
              ⟨.unpacked, refRepo pr ++ "@sha256:" ++ hex⟩)
        else
          .error ⟨false, "error pulling image"⟩

/-- Modelled from the spec: the source-kind dispatch of the unpacker
(`source.NewUnpacker` with the image kind registered; its
implementation is missing from the sources).  An unregistered source
kind yields an `Unrecoverable` error. -/
def unpackerUnpack (i : ImageRegistry) (cache : List (String × String)) (c : Catalog) :
    Except UnpackError (List (String × String) × Result) :=
  match c.source.type with
  | .image => i.Unpack cache c.name c.source
  | .other _ => .error ⟨true, "source type not supported"⟩

/-- The cache entries belonging to a resource name. -/
def cacheEntriesFor (cache : List (String × String)) (nm : String) : List (String × String) :=
  cache.filter fun ent => ent.1 == nm

/-- A directory entry of the unpack cache root, as seen by
`os.ReadDir`: a name and whether it is a directory. -/
structure DirEntry where
  name : String
  isDir : Bool
deriving DecidableEq

/-- The startup garbage-collection sweep, translated from
`cmd/manager/main.go` (`unpackStartupGarbageCollection`).  Inputs model
the catalog metadata listing (which can fail), the cache-root directory
read (which can fail), and whether `os.RemoveAll` succeeds on each
entry.  The result is the list of cache-root entries remaining after
the sweep: an entry is kept when it is a directory named after a live
catalog, or when its removal was attempted and failed (a removal
failure is only logged and does not abort the sweep); a listing or
directory-read failure aborts the sweep with an error. -/
def unpackStartupGarbageCollection
    (metaList : Except String (List String))
    (cacheDirEntries : Except String (List DirEntry))
    (removeOk : DirEntry → Bool) :
    Except String (List DirEntry) :=
  match metaList with
  | .error e => .error ("error listing catalogs: " ++ e)
  | .ok expectedCatalogs =>
    match cacheDirEntries with
    | .error e => .error ("error reading cache directory: " ++ e)
    | .ok entries =>
      .ok (entries.filter fun entry =>
        (entry.isDir && expectedCatalogs.contains entry.name) || !(removeOk entry))

/-- Claim C8: on the normal path with the finalizer absent, reconcile
adds the finalizer and returns success immediately, without invoking the
resolver (the resolver outcome `up` is arbitrary and unused) and without
modifying any other field of the resource. -/
theorem reconcile_adds_finalizer (c : Catalog) (up : Except UnpackError Result)
    (so d cl : Bool) (u : String)
    (hdel : c.deletionTimestampSet = false) (hfin : c.hasFinalizer = false) :
    reconcile ⟨up, so, d, cl, u⟩ c = ({ c with hasFinalizer := true }, none) := by
  simp [reconcile, hdel, hfin]

/-- Claim C1: on the normal path (deletion timestamp unset, finalizer
present), reconcile maps the resolver result state to status exactly:
`Pending` gives phase `Pending` with a single condition
`Unpacked`/false/`UnpackPending` and no error; `Unpacking` gives phase
`Unpacking` with condition false/`Unpacking` and no error; an
unrecognized state gives phase `Failing` with condition
false/`UnpackFailed` and a returned error. -/
theorem reconcile_maps_unpack_states (c : Catalog) (ref s : String)
    (so d cl : Bool) (u : String)
    (hdel : c.deletionTimestampSet = false) (hfin : c.hasFinalizer = true)
    (hconds : c.conditions = []) :
    reconcile ⟨.ok ⟨.pending, ref⟩, so, d, cl, u⟩ c
      = ({ c with
            phase := some Phase.pending,
            conditions := [⟨.unpacked, false, .unpackPending⟩] }, none)
    ∧ reconcile ⟨.ok ⟨.unpacking, ref⟩, so, d, cl, u⟩ c
      = ({ c with
            phase := some Phase.unpacking,
            conditions := [⟨.unpacked, false, .unpacking⟩] }, none)
    ∧ ∃ err, reconcile ⟨.ok ⟨.unknown s, ref⟩, so, d, cl, u⟩ c
      = ({ c with
            phase := some Phase.failing,
            conditions := [⟨.unpacked, false, .unpackFailed⟩] }, some err) := by
  refine ⟨?_, ?_, ⟨⟨false, "unknown unpack state"⟩, ?_⟩⟩ <;>
    simp [reconcile, hdel, hfin, hconds, setCondition]

/-- Claim C6: on resolver state `Unpacked`, the storage step: if the
store fails, phase is `Failing` with condition false/`StorageFailed`,
the content URL stays unset and the error is returned; if the store
succeeds, phase is `Unpacked`, the content URL is the store's URL for
the resource, the `Unpacked` condition is true with reason
`UnpackSuccessful` and no error is returned. -/
theorem reconcile_storage_step (c : Catalog) (ref : String)
    (d cl : Bool) (u : String)
    (hdel : c.deletionTimestampSet = false) (hfin : c.hasFinalizer = true)
    (hconds : c.conditions = []) (hurl : c.contentURL = none) :
    (∃ err, reconcile ⟨.ok ⟨.unpacked, ref⟩, false, d, cl, u⟩ c
      = ({ c with
            phase := some Phase.failing,
            conditions := [⟨.unpacked, false, .storageFailed⟩] }, some err))
    ∧ (reconcile ⟨.ok ⟨.unpacked, ref⟩, false, d, cl, u⟩ c).1.contentURL = none
    ∧ reconcile ⟨.ok ⟨.unpacked, ref⟩, true, d, cl, u⟩ c
      = ({ c with
            phase := some Phase.unpacked,
            contentURL := some u,
            resolvedRef := some ref,
            conditions := [⟨.unpacked, true, .unpackSuccessful⟩] }, none) := by
  refine ⟨⟨⟨false, "storage failed"⟩, ?_⟩, ?_, ?_⟩ <;>
    simp [reconcile, hdel, hfin, hconds, hurl, setCondition]

/-- Claim C7: with the finalizer set and a deletion timestamp, if
store-delete and resolver cleanup both succeed, reconcile removes the
finalizer and returns no error; if store-delete fails, the finalizer
remains, a `Delete`-type condition is set false/`StorageDeleteFailed`,
and an error is returned. -/
theorem reconcile_deletion_path (c : Catalog) (up : Except UnpackError Result)
    (so cl : Bool) (u : String)
    (hdel : c.deletionTimestampSet = true) (hfin : c.hasFinalizer = true)
    (hconds : c.conditions = []) :
    reconcile ⟨up, so, true, true, u⟩ c = ({ c with hasFinalizer := false }, none)
    ∧ (reconcile ⟨up, so, false, cl, u⟩ c).1.hasFinalizer = true
    ∧ (reconcile ⟨up, so, false, cl, u⟩ c).1.conditions
        = [⟨.delete, false, .storageDeleteFailed⟩]
    ∧ (reconcile ⟨up, so, false, cl, u⟩ c).2.isSome = true := by
  refine ⟨?_, ?_, ?_, ?_⟩ <;> simp [reconcile, hdel, hfin, hconds, setCondition]

/-- Claim C2: unpacking a catalog with a nil image source, an
unparsable reference, or an image lacking the required config-directory
label always fails with an `Unrecoverable` error; an unregistered
source kind likewise fails `Unrecoverable`; and reconciling a resource
whose unpack errors leaves phase `Failing` with condition reason
`UnpackFailed` and returns the error. -/
theorem unpack_unrecoverable_classification (i : ImageRegistry)
    (cache : List (String × String)) (nm s rb rc repo hex : String)
    (c4 : Catalog) (c : Catalog) (e : UnpackError) (so d cl : Bool) (u : String)
    (hb : i.parse rb = none)
    (hc : i.parse rc = some (.digest repo hex))
    (hcm : (nm, hex) ∉ cache)
    (hcpull : i.registry.pullOk repo hex = true)
    (hclabel : i.registry.configDirLabel repo hex = none)
    (hkind : c4.source.type = .other s)
    (hdel : c.deletionTimestampSet = false) (hfin : c.hasFinalizer = true)
    (hconds : c.conditions = []) :
    i.Unpack cache nm ⟨.image, none⟩ = .error ⟨true, "image source is nil"⟩
    ∧ i.Unpack cache nm ⟨.image, some ⟨rb⟩⟩ = .error ⟨true, "error parsing image reference"⟩
    ∧ i.Unpack cache nm ⟨.image, some ⟨rc⟩⟩
        = .error ⟨true, "image is missing the required configs directory label"⟩
    ∧ unpackerUnpack i cache c4 = .error ⟨true, "source type not supported"⟩
    ∧ reconcile ⟨.error e, so, d, cl, u⟩ c
        = ({ c with
              phase := some Phase.failing,
              conditions := [⟨.unpacked, false, .unpackFailed⟩] }, some e) := by
  refine ⟨?_, ?_, ?_, ?_, ?_⟩
  · simp [ImageRegistry.Unpack]
  · simp [ImageRegistry.Unpack, hb]
  · simp [ImageRegistry.Unpack, hc, resolveDigest, refRepo, hcm, hcpull, hclabel]
  · simp [unpackerUnpack, hkind]
  · simp [reconcile, hdel, hfin, hconds, setCondition]

/-- Claim C3: for a valid reference (tag or digest form) pointing to an
image carrying the required label, Unpack returns state `Unpacked`, a
resolved reference rewritten to the fully digest-pinned
`repository@sha256:digestHex` form, and a cache entry for
(resourceName, digestHex) present in the resulting cache. -/
theorem unpack_happy_path_digest_pinned (i : ImageRegistry)
    (cache : List (String × String)) (nm t repo hex dir r1 r2 : String)
    (hp1 : i.parse r1 = some (.tag repo t))
    (hres : i.registry.resolveTag repo t = some hex)
    (hp2 : i.parse r2 = some (.digest repo hex))
    (hpull : i.registry.pullOk repo hex = true)
    (hlabel : i.registry.configDirLabel repo hex = some dir) :
    (∃ cache1, i.Unpack cache nm ⟨.image, some ⟨r1⟩⟩
        = .ok (cache1, ⟨.unpacked, repo ++ "@sha256:" ++ hex⟩) ∧ (nm, hex) ∈ cache1)
    ∧ (∃ cache2, i.Unpack cache nm ⟨.image, some ⟨r2⟩⟩
        = .ok (cache2, ⟨.unpacked, repo ++ "@sha256:" ++ hex⟩) ∧ (nm, hex) ∈ cache2) := by
  constructor
  · by_cases hmem : (nm, hex) ∈ cache
    · exact ⟨cache, by simp [ImageRegistry.Unpack, hp1, resolveDigest, hres, refRepo, hmem], hmem⟩
    · refine ⟨(nm, hex) :: cache.filter (fun ent => !(ent.1 == nm)), ?_, List.mem_cons_self _ _⟩
      simp [ImageRegistry.Unpack, hp1, resolveDigest, hres, refRepo, hmem, hpull, hlabel]
  · by_cases hmem : (nm, hex) ∈ cache
    · exact ⟨cache, by simp [ImageRegistry.Unpack, hp2, resolveDigest, refRepo, hmem], hmem⟩
    · refine ⟨(nm, hex) :: cache.filter (fun ent => !(ent.1 == nm)), ?_, List.mem_cons_self _ _⟩
      simp [ImageRegistry.Unpack, hp2, resolveDigest, refRepo, hmem, hpull, hlabel]

/-- Claim C5: when the cache already holds the entry for the resolved
digest (tag or digest reference), Unpack returns state `Unpacked` with
the cache unchanged, with no hypothesis on the registry's pull or label
behaviour — so it succeeds even when the image lacks the required
label, performs no re-fetch of image content, and a second resolve of
the same resource and digest is idempotent (the returned cache equals
the input cache, so rerunning the call yields the same result). -/
theorem unpack_cache_hit_idempotent (i : ImageRegistry)
    (cache : List (String × String)) (nm t repo hex r1 r2 : String)
    (hp1 : i.parse r1 = some (.tag repo t))
    (hres : i.registry.resolveTag repo t = some hex)
    (hp2 : i.parse r2 = some (.digest repo hex))
    (hmem : (nm, hex) ∈ cache) :
    i.Unpack cache nm ⟨.image, some ⟨r1⟩⟩
      = .ok (cache, ⟨.unpacked, repo ++ "@sha256:" ++ hex⟩)
    ∧ i.Unpack cache nm ⟨.image, some ⟨r2⟩⟩
      = .ok (cache, ⟨.unpacked, repo ++ "@sha256:" ++ hex⟩) := by
  constructor
  · simp [ImageRegistry.Unpack, hp1, resolveDigest, hres, refRepo, hmem]
  · simp [ImageRegistry.Unpack, hp2, resolveDigest, refRepo, hmem]

/-- Publishing a new digest entry and removing the other-digest
siblings leaves exactly that entry for the resource. -/
theorem cacheEntriesFor_publish (cache : List (String × String)) (nm hex : String) :
    cacheEntriesFor ((nm, hex) :: cache.filter fun ent => !(ent.1 == nm)) nm = [(nm, hex)] := by
  simp [cacheEntriesFor, List.filter_filter]

/-- A cache entry of a resource is among that resource's entries. -/
theorem cacheEntriesFor_mem (cache : List (String × String)) (nm hex : String)
    (hmem : (nm, hex) ∈ cache) : (nm, hex) ∈ cacheEntriesFor cache nm :=
  List.mem_filter.mpr ⟨hmem, by simp⟩

/-- Claim C4: after each successful Unpack, exactly one cache entry
exists for the resource name (given the at-most-one invariant held
before the call, as it does along any sequence of resolves from an
empty cache): a newly materialized entry removes any pre-existing
entry with a different digest, and the removal never fails the
overall resolve. -/
theorem unpack_at_most_one_cache_entry (i : ImageRegistry)
    (cache cache' : List (String × String)) (nm : String) (src : CatalogSource)
    (res : Result)
    (hinv : (cacheEntriesFor cache nm).length ≤ 1)
    (hok : i.Unpack cache nm src = .ok (cache', res)) :
    (cacheEntriesFor cache' nm).length = 1 := by
  unfold ImageRegistry.Unpack at hok
  split at hok
  · exact Except.noConfusion hok
  · split at hok
    · exact Except.noConfusion hok
    · split at hok
      · exact Except.noConfusion hok
      · rename_i hex heq
        split at hok
        · rename_i hmem
          simp only [Except.ok.injEq, Prod.mk.injEq] at hok
          obtain ⟨h1, -⟩ := hok
          subst h1
          have hge : 0 < (cacheEntriesFor cache nm).length :=
            List.length_pos.mpr (List.ne_nil_of_mem (cacheEntriesFor_mem cache nm hex hmem))
          omega
        · split at hok
          · split at hok
            · exact Except.noConfusion hok
            · simp only [Except.ok.injEq, Prod.mk.injEq] at hok
              obtain ⟨h1, -⟩ := hok
              subst h1
              simp [cacheEntriesFor_publish]
          · exact Except.noConfusion hok

/-- Claim C9: the startup garbage-collection sweep removes every
cache-root subdirectory not named after a live resource and classifies
failures asymmetrically: with listing and directory read succeeding the
sweep returns success (individual removal failures never abort it),
while a failure to list resources or to read the cache root makes the
sweep return an error. -/
theorem gc_sweep_error_classification (names : List String) (entries : List DirEntry)
    (removeOk : DirEntry → Bool) (e1 e2 : String) (ent : DirEntry)
    (_hmem : ent ∈ entries) (hdir : ent.isDir = true)
    (hstale : names.contains ent.name = false) (hrm : removeOk ent = true) :
    (∃ remaining, unpackStartupGarbageCollection (.ok names) (.ok entries) removeOk
        = .ok remaining ∧ ent ∉ remaining)
    ∧ (∀ r, unpackStartupGarbageCollection (.error e1) (.ok entries) removeOk ≠ .ok r)
    ∧ (∀ r, unpackStartupGarbageCollection (.ok names) (.error e2) removeOk ≠ .ok r) := by
  refine ⟨⟨_, rfl, ?_⟩, ?_, ?_⟩
  · intro hmem'
    have hkeep := (List.mem_filter.mp hmem').2
    simp [hdir, hrm] at hkeep
    simp at hstale
    exact hstale hkeep
  · intro r h
    exact Except.noConfusion h
  · intro r h
    exact Except.noConfusion h

/-- Claim C10: the sweep keeps a cache-root entry only if it is both a
directory and named after a live resource — when removals succeed, the
remaining entries are exactly the live-named directories, so every
non-directory entry is removed even when its name matches a live
resource. -/
theorem gc_sweep_keeps_only_live_dirs (names : List String) (entries : List DirEntry)
    (removeOk : DirEntry → Bool)
    (hall : ∀ x ∈ entries, removeOk x = true) :
    unpackStartupGarbageCollection (.ok names) (.ok entries) removeOk
      = .ok (entries.filter fun entry => entry.isDir && names.contains entry.name) := by
  unfold unpackStartupGarbageCollection
  refine congrArg Except.ok (List.filter_congr ?_)
  intro x hx
  simp [hall x hx]

/-- Witness for C8 at a concrete catalog. -/
theorem reconcile_adds_finalizer_witness :
    reconcile ⟨.ok ⟨.pending, "ref"⟩, true, true, true, "URL"⟩
        ⟨"catalog", ⟨.image, some ⟨"someimage:latest"⟩⟩, false, false, none, [], none, none⟩
      = (⟨"catalog", ⟨.image, some ⟨"someimage:latest"⟩⟩, true, false, none, [], none, none⟩,
          none) :=
  reconcile_adds_finalizer _ _ true true true "URL" rfl rfl

/-- Witness for C1 at a concrete catalog and resolver results. -/
theorem reconcile_maps_unpack_states_witness :
    reconcile ⟨.ok ⟨.pending, "ref"⟩, true, true, true, "URL"⟩
        ⟨"catalog", ⟨.image, some ⟨"someimage:latest"⟩⟩, true, false, none, [], none, none⟩
      = (⟨"catalog", ⟨.image, some ⟨"someimage:latest"⟩⟩, true, false, some Phase.pending,
          [⟨.unpacked, false, .unpackPending⟩], none, none⟩, none)
    ∧ reconcile ⟨.ok ⟨.unpacking, "ref"⟩, true, true, true, "URL"⟩
        ⟨"catalog", ⟨.image, some ⟨"someimage:latest"⟩⟩, true, false, none, [], none, none⟩
      = (⟨"catalog", ⟨.image, some ⟨"someimage:latest"⟩⟩, true, false, some Phase.unpacking,
          [⟨.unpacked, false, .unpacking⟩], none, none⟩, none)
    ∧ ∃ err, reconcile ⟨.ok ⟨.unknown "unknown", "ref"⟩, true, true, true, "URL"⟩
        ⟨"catalog", ⟨.image, some ⟨"someimage:latest"⟩⟩, true, false, none, [], none, none⟩
      = (⟨"catalog", ⟨.image, some ⟨"someimage:latest"⟩⟩, true, false, some Phase.failing,
          [⟨.unpacked, false, .unpackFailed⟩], none, none⟩, some err) :=
  reconcile_maps_unpack_states _ "ref" "unknown" true true true "URL" rfl rfl rfl

/-- Witness for C6 at a concrete catalog. -/
theorem reconcile_storage_step_witness :
    (∃ err, reconcile ⟨.ok ⟨.unpacked, "ref"⟩, false, true, true, "URL"⟩
        ⟨"catalog", ⟨.image, some ⟨"someimage:latest"⟩⟩, true, false, none, [], none, none⟩
      = (⟨"catalog", ⟨.image, some ⟨"someimage:latest"⟩⟩, true, false, some Phase.failing,
          [⟨.unpacked, false, .storageFailed⟩], none, none⟩, some err))
    ∧ (reconcile ⟨.ok ⟨.unpacked, "ref"⟩, false, true, true, "URL"⟩
        ⟨"catalog", ⟨.image, some ⟨"someimage:latest"⟩⟩, true, false, none, [], none, none⟩).1.contentURL
      = none
    ∧ reconcile ⟨.ok ⟨.unpacked, "ref"⟩, true, true, true, "URL"⟩
        ⟨"catalog", ⟨.image, some ⟨"someimage:latest"⟩⟩, true, false, none, [], none, none⟩
      = (⟨"catalog", ⟨.image, some ⟨"someimage:latest"⟩⟩, true, false, some Phase.unpacked,
          [⟨.unpacked, true, .unpackSuccessful⟩], some "URL", some "ref"⟩, none) :=
  reconcile_storage_step _ "ref" true true "URL" rfl rfl rfl rfl

/-- Witness for C7 at a concrete catalog being deleted. -/
theorem reconcile_deletion_path_witness :
    reconcile ⟨.ok ⟨.pending, "ref"⟩, true, true, true, "URL"⟩
        ⟨"catalog", ⟨.image, some ⟨"someimage:latest"⟩⟩, true, true, none, [], none, none⟩
      = (⟨"catalog", ⟨.image, some ⟨"someimage:latest"⟩⟩, false, true, none, [], none, none⟩,
          none)
    ∧ (reconcile ⟨.ok ⟨.pending, "ref"⟩, true, false, true, "URL"⟩
        ⟨"catalog", ⟨.image, some ⟨"someimage:latest"⟩⟩, true, true, none, [], none, none⟩).1.hasFinalizer
      = true
    ∧ (reconcile ⟨.ok ⟨.pending, "ref"⟩, true, false, true, "URL"⟩
        ⟨"catalog", ⟨.image, some ⟨"someimage:latest"⟩⟩, true, true, none, [], none, none⟩).1.conditions
      = [⟨.delete, false, .storageDeleteFailed⟩]
    ∧ (reconcile ⟨.ok ⟨.pending, "ref"⟩, true, false, true, "URL"⟩
        ⟨"catalog", ⟨.image, some ⟨"someimage:latest"⟩⟩, true, true, none, [], none, none⟩).2.isSome
      = true :=
  reconcile_deletion_path _ _ true true "URL" rfl rfl rfl

/-- Witness for C2 at a concrete resolver and catalogs. -/
theorem unpack_unrecoverable_classification_witness :
    ImageRegistry.Unpack
        ⟨fun s => if s = "good" then some (.digest "r" "h") else none,
          ⟨fun _ _ => none, fun _ _ => true, fun _ _ => none⟩⟩
        [] "test" ⟨.image, none⟩
      = .error ⟨true, "image source is nil"⟩
    ∧ ImageRegistry.Unpack
        ⟨fun s => if s = "good" then some (.digest "r" "h") else none,
          ⟨fun _ _ => none, fun _ _ => true, fun _ _ => none⟩⟩
        [] "test" ⟨.image, some ⟨"bad"⟩⟩
      = .error ⟨true, "error parsing image reference"⟩
    ∧ ImageRegistry.Unpack
        ⟨fun s => if s = "good" then some (.digest "r" "h") else none,
          ⟨fun _ _ => none, fun _ _ => true, fun _ _ => none⟩⟩
        [] "test" ⟨.image, some ⟨"good"⟩⟩
      = .error ⟨true, "image is missing the required configs directory label"⟩
    ∧ unpackerUnpack
        ⟨fun s => if s = "good" then some (.digest "r" "h") else none,
          ⟨fun _ _ => none, fun _ _ => true, fun _ _ => none⟩⟩
        [] ⟨"catalog", ⟨.other "invalid", none⟩, true, false, none, [], none, none⟩
      = .error ⟨true, "source type not supported"⟩
    ∧ reconcile ⟨.error ⟨false, "mocksource error"⟩, true, true, true, "URL"⟩
        ⟨"catalog", ⟨.image, some ⟨"someimage:latest"⟩⟩, true, false, none, [], none, none⟩
      = (⟨"catalog", ⟨.image, some ⟨"someimage:latest"⟩⟩, true, false, some Phase.failing,
          [⟨.unpacked, false, .unpackFailed⟩], none, none⟩, some ⟨false, "mocksource error"⟩) :=
  unpack_unrecoverable_classification _ [] "test" "invalid" "bad" "good" "r" "h" _ _
    ⟨false, "mocksource error"⟩ true true true "URL"
    rfl rfl (by decide) rfl rfl rfl rfl rfl rfl

/-- Witness for C3 at a concrete resolver and registry. -/
theorem unpack_happy_path_digest_pinned_witness :
    (∃ cache1, ImageRegistry.Unpack
        ⟨fun s => if s = "r:t" then some (.tag "r" "t")
          else if s = "r@sha256:h" then some (.digest "r" "h") else none,
          ⟨fun _ _ => some "h", fun _ _ => true, fun _ _ => some "/configs"⟩⟩
        [] "test" ⟨.image, some ⟨"r:t"⟩⟩
      = .ok (cache1, ⟨.unpacked, "r" ++ "@sha256:" ++ "h"⟩) ∧ ("test", "h") ∈ cache1)
    ∧ (∃ cache2, ImageRegistry.Unpack
        ⟨fun s => if s = "r:t" then some (.tag "r" "t")
          else if s = "r@sha256:h" then some (.digest "r" "h") else none,
          ⟨fun _ _ => some "h", fun _ _ => true, fun _ _ => some "/configs"⟩⟩
        [] "test" ⟨.image, some ⟨"r@sha256:h"⟩⟩
      = .ok (cache2, ⟨.unpacked, "r" ++ "@sha256:" ++ "h"⟩) ∧ ("test", "h") ∈ cache2) :=
  unpack_happy_path_digest_pinned _ [] "test" "t" "r" "h" "/configs" "r:t" "r@sha256:h"
    rfl rfl rfl rfl rfl

/-- Witness for C5 at a concrete pre-populated cache. -/
theorem unpack_cache_hit_idempotent_witness :
    ImageRegistry.Unpack
        ⟨fun s => if s = "r:t" then some (.tag "r" "t")
          else if s = "r@sha256:h" then some (.digest "r" "h") else none,
          ⟨fun _ _ => some "h", fun _ _ => false, fun _ _ => none⟩⟩
        [("test", "h")] "test" ⟨.image, some ⟨"r:t"⟩⟩
      = .ok ([("test", "h")], ⟨.unpacked, "r" ++ "@sha256:" ++ "h"⟩)
    ∧ ImageRegistry.Unpack
        ⟨fun s => if s = "r:t" then some (.tag "r" "t")
          else if s = "r@sha256:h" then some (.digest "r" "h") else none,
          ⟨fun _ _ => some "h", fun _ _ => false, fun _ _ => none⟩⟩
        [("test", "h")] "test" ⟨.image, some ⟨"r@sha256:h"⟩⟩
      = .ok ([("test", "h")], ⟨.unpacked, "r" ++ "@sha256:" ++ "h"⟩) :=
  unpack_cache_hit_idempotent _ [("test", "h")] "test" "t" "r" "h" "r:t" "r@sha256:h"
    rfl rfl rfl (by decide)

/-- Witness for C4 at a concrete resolve superseding an old digest. -/
theorem unpack_at_most_one_cache_entry_witness :
    (cacheEntriesFor [("test", "h")] "test").length = 1 :=
  unpack_at_most_one_cache_entry
    ⟨fun s => if s = "r:t" then some (.tag "r" "t") else none,
      ⟨fun _ _ => some "h", fun _ _ => true, fun _ _ => some "/configs"⟩⟩
    [("test", "old")] [("test", "h")] "test" ⟨.image, some ⟨"r:t"⟩⟩
    ⟨.unpacked, "r" ++ "@sha256:" ++ "h"⟩ (by decide) rfl

/-- Witness for C9 at a concrete stale entry and failing inputs. -/
theorem gc_sweep_error_classification_witness :
    (∃ remaining, unpackStartupGarbageCollection (.ok ["a"]) (.ok [⟨"b", true⟩]) (fun _ => true)
        = .ok remaining ∧ (⟨"b", true⟩ : DirEntry) ∉ remaining)
    ∧ (∀ r, unpackStartupGarbageCollection (.error "boom") (.ok [⟨"b", true⟩]) (fun _ => true)
        ≠ .ok r)
    ∧ (∀ r, unpackStartupGarbageCollection (.ok ["a"]) (.error "boom") (fun _ => true)
        ≠ .ok r) :=
  gc_sweep_error_classification ["a"] [⟨"b", true⟩] (fun _ => true) "boom" "boom"
    ⟨"b", true⟩ (by decide) rfl (by decide) rfl

/-- Witness for C10 at a concrete cache-root listing. -/
theorem gc_sweep_keeps_only_live_dirs_witness :
    unpackStartupGarbageCollection (.ok ["a", "c"])
        (.ok [⟨"a", true⟩, ⟨"b", true⟩, ⟨"c", true⟩, ⟨"a", false⟩]) (fun _ => true)
      = .ok ([⟨"a", true⟩, ⟨"b", true⟩, ⟨"c", true⟩, ⟨"a", false⟩].filter
          fun entry => entry.isDir && ["a", "c"].contains entry.name) :=
  gc_sweep_keeps_only_live_dirs ["a", "c"] [⟨"a", true⟩, ⟨"b", true⟩, ⟨"c", true⟩, ⟨"a", false⟩]
    (fun _ => true) (by decide)

end Catalogd
